import Mathlib

/-!
Shallow embedding of `src/rps_simulator.cpp`, a rock-paper-scissors arena
simulator.  The code's `float` values are modelled as rationals.  The one
call to `std::sqrt` whose value feeds back into the state (the separation
nudge in `GameRules::resolveCollision`) is modelled by `Rat.sqrt`, which
agrees with the real square root on perfect squares; every theorem below
either does not depend on the square root's rounding or evaluates it only
at perfect squares.  The distance comparison in `GameObject::collidesWith`
is embedded in its exact squared form (see the doc comment there).
-/

/-- Embeds `enum class ObjectType`. -/
inductive ObjectType
  | ROCK
  | PAPER
  | SCISSORS
deriving DecidableEq, Repr

/-- Embeds `class GameObject`: kind, position, velocity, collision radius. -/
structure GameObject where
  type : ObjectType
  x : ℚ
  y : ℚ
  vx : ℚ
  vy : ℚ
  radius : ℚ
deriving DecidableEq, Repr

/-- Embeds the `GameObject` constructor: the radius is fixed at `5.0`; the
velocity components are drawn from a `static std::mt19937` seeded by
`std::random_device`, so the embedding takes them as explicit inputs (they
are not a function of anything the caller passes). -/
def mkGameObject (t : ObjectType) (startX startY velX velY : ℚ) : GameObject :=
  { type := t, x := startX, y := startY, vx := velX, vy := velY, radius := 5 }

/-- Embeds `GameObject::update`: integrate one step of motion. -/
def GameObject.update (o : GameObject) : GameObject :=
  { o with x := o.x + o.vx, y := o.y + o.vy }

/-- Embeds `GameObject::collidesWith`.  The code tests
`sqrt(dx*dx + dy*dy) < radius + other.radius`; since the square root is
nonnegative, that holds exactly when the radius sum is positive and
`dx*dx + dy*dy < (radius + other.radius)^2`, and the embedding uses this
squared form, which is exact over `ℚ`; the equivalence with the real
square root is proved below. -/
def GameObject.collidesWith (o other : GameObject) : Bool :=
  let dx := o.x - other.x
  let dy := o.y - other.y
  let rsum := o.radius + other.radius
  decide (0 < rsum ∧ dx * dx + dy * dy < rsum * rsum)

/-- Embeds `GameObject::handleBoundaries`: two independent tests, x first,
then y; each negates the matching velocity component and clamps the
coordinate via `max(radius, min(extent - radius, coord))`. -/
def GameObject.handleBoundaries (o : GameObject) (width height : ℚ) : GameObject :=
  let o1 :=
    if o.x - o.radius ≤ 0 ∨ width ≤ o.x + o.radius then
      { o with vx := -o.vx, x := max o.radius (min (width - o.radius) o.x) }
    else o
  if o1.y - o1.radius ≤ 0 ∨ height ≤ o1.y + o1.radius then
    { o1 with vy := -o1.vy, y := max o1.radius (min (height - o1.radius) o1.y) }
  else o1

/-- Embeds `GameRules::determineWinner`. -/
def GameRules.determineWinner (type1 type2 : ObjectType) : ObjectType :=
  if type1 = type2 then type1
  else
    match type1 with
    | ObjectType.ROCK =>
        if type2 = ObjectType.SCISSORS then ObjectType.ROCK else ObjectType.PAPER
    | ObjectType.PAPER =>
        if type2 = ObjectType.ROCK then ObjectType.PAPER else ObjectType.SCISSORS
    | ObjectType.SCISSORS =>
        if type2 = ObjectType.PAPER then ObjectType.SCISSORS else ObjectType.ROCK

/-- Embeds `GameRules::resolveCollision`: both objects take the winner's
kind; then, when the center distance is positive, the objects are nudged
apart along the center line by `separationForce = 2.0`.  `std::sqrt` is
modelled by `Rat.sqrt`; no theorem below depends on its rounding away from
perfect squares. -/
def GameRules.resolveCollision (obj1 obj2 : GameObject) : GameObject × GameObject :=
  let winner := GameRules.determineWinner obj1.type obj2.type
  let o1 := { obj1 with type := winner }
  let o2 := { obj2 with type := winner }
  let dx := o1.x - o2.x
  let dy := o1.y - o2.y
  let distance := Rat.sqrt (dx * dx + dy * dy)
  if 0 < distance then
    let separationForce : ℚ := 2
    ({ o1 with x := o1.x + dx / distance * separationForce,
               y := o1.y + dy / distance * separationForce },
     { o2 with x := o2.x - dx / distance * separationForce,
               y := o2.y - dy / distance * separationForce })
  else
    (o1, o2)

/-- Embeds `class RPSSimulator`: the objects, the box, and the generation
counter (an `int` in the code). -/
structure RPSSimulator where
  objects : List GameObject
  boxWidth : ℚ
  boxHeight : ℚ
  generation : ℤ
deriving DecidableEq, Repr

/-- Embeds `RPSSimulator::initializeObjects` (the name is shortened):
five rounds, each emplacing a ROCK, a PAPER and a SCISSORS object.
`pos k` is the k-th position pair drawn from `xDist`/`yDist` over the
member `rng`, hence a pure function of the value fed to `rng.seed`;
`vel k` is the k-th velocity pair drawn inside the `GameObject`
constructor from the `static` generator, which is seeded by
`std::random_device` and is not a function of the member seed. -/
def initObjects (pos vel : ℕ → ℚ × ℚ) : List GameObject :=
  (List.range 5).flatMap (fun i =>
    [ mkGameObject ObjectType.ROCK
        (pos (3 * i)).1 (pos (3 * i)).2 (vel (3 * i)).1 (vel (3 * i)).2,
      mkGameObject ObjectType.PAPER
        (pos (3 * i + 1)).1 (pos (3 * i + 1)).2 (vel (3 * i + 1)).1 (vel (3 * i + 1)).2,
      mkGameObject ObjectType.SCISSORS
        (pos (3 * i + 2)).1 (pos (3 * i + 2)).2 (vel (3 * i + 2)).1 (vel (3 * i + 2)).2 ])

/-- Embeds the `RPSSimulator` constructor: store the box dimensions, set
`generation = 0`, seed the member rng (the seed fully determines `pos`),
and create the objects. -/
def mkSimulator (width height : ℚ) (pos vel : ℕ → ℚ × ℚ) : RPSSimulator :=
  { objects := initObjects pos vel, boxWidth := width, boxHeight := height,
    generation := 0 }

/-- One inner-loop body of the collision scan in `RPSSimulator::update`:
test objects `i` and `j` and, on collision, store both updated objects
back in place. -/
def resolvePair (objs : List GameObject) (i j : ℕ) : List GameObject :=
  match objs[i]?, objs[j]? with
  | some oi, some oj =>
    if oi.collidesWith oj then
      let r := GameRules.resolveCollision oi oj
      (objs.set i r.1).set j r.2
    else objs
  | _, _ => objs

/-- Index pairs `(i, j)` with `i < j`, in the order the nested loops of
`RPSSimulator::update` visit them. -/
def pairIndices (n : ℕ) : List (ℕ × ℕ) :=
  (List.range n).flatMap (fun i =>
    ((List.range n).filter (fun j => decide (i < j))).map (fun j => (i, j)))

/-- Collision phase of `RPSSimulator::update`: fold the pairwise scan over
the object list, updating in place so that later pairs see earlier
resolutions. -/
def collisionPhase (objs : List GameObject) : List GameObject :=
  (pairIndices objs.length).foldl (fun acc p => resolvePair acc p.1 p.2) objs

/-- Motion phase of `RPSSimulator::update`: each object integrates and
then handles the walls, in index order. -/
def RPSSimulator.motionPhase (sim : RPSSimulator) : List GameObject :=
  sim.objects.map (fun o => (GameObject.update o).handleBoundaries sim.boxWidth sim.boxHeight)

/-- Embeds `RPSSimulator::update`: motion phase, collision phase, then the
generation counter increments. -/
def RPSSimulator.update (sim : RPSSimulator) : RPSSimulator :=
  { sim with objects := collisionPhase sim.motionPhase,
             generation := sim.generation + 1 }

/-- Runs `n` repeated calls of `RPSSimulator::update`, as the driver loop
makes. -/
def RPSSimulator.runTicks (sim : RPSSimulator) : ℕ → RPSSimulator
  | 0 => sim
  | n + 1 => (sim.runTicks n).update

/-- Loop body of `RPSSimulator::getTypeCounts`: bump the counter of the
object's kind. -/
def countStep (c : ℕ × ℕ × ℕ) (o : GameObject) : ℕ × ℕ × ℕ :=
  match o.type with
  | ObjectType.ROCK => (c.1 + 1, c.2.1, c.2.2)
  | ObjectType.PAPER => (c.1, c.2.1 + 1, c.2.2)
  | ObjectType.SCISSORS => (c.1, c.2.1, c.2.2 + 1)

/-- Embeds `RPSSimulator::getTypeCounts`: scan the objects, counting each
kind (the three `int` out-parameters become a triple). -/
def RPSSimulator.getTypeCounts (sim : RPSSimulator) : ℕ × ℕ × ℕ :=
  sim.objects.foldl countStep (0, 0, 0)

/-- Embeds `RPSSimulator::isGameOver`: at most one kind has a nonzero
count (the code sums three boolean indicators). -/
def RPSSimulator.isGameOver (sim : RPSSimulator) : Bool :=
  let c := sim.getTypeCounts
  decide ((if 0 < c.1 then 1 else 0) + (if 0 < c.2.1 then 1 else 0) +
    (if 0 < c.2.2 then 1 else 0) ≤ (1 : ℕ))

/-- Embeds `RPSSimulator::getWinner`: the first kind with a positive count
in the order ROCK, PAPER, SCISSORS; ROCK as a fallback. -/
def RPSSimulator.getWinner (sim : RPSSimulator) : ObjectType :=
  let c := sim.getTypeCounts
  if 0 < c.1 then ObjectType.ROCK
  else if 0 < c.2.1 then ObjectType.PAPER
  else if 0 < c.2.2 then ObjectType.SCISSORS
  else ObjectType.ROCK

/-- Holds when every object of `l` lies fully inside the `width × height`
box: the between-tick containment invariant the spec claims. -/
def boundsOK (width height : ℚ) (l : List GameObject) : Bool :=
  l.all (fun o => decide (o.radius ≤ o.x ∧ o.x ≤ width - o.radius ∧
    o.radius ≤ o.y ∧ o.y ≤ height - o.radius))

/-- Number of objects of kind `k` in the arena. -/
def countOf (sim : RPSSimulator) (k : ObjectType) : ℕ :=
  sim.objects.countP (fun o => decide (o.type = k))

/-- Well-formedness of an arena state: positive box dimensions, and every
object has a positive radius small enough to fit in the box. -/
def wellFormedArena (sim : RPSSimulator) : Bool :=
  decide (0 < sim.boxWidth) && decide (0 < sim.boxHeight) &&
  sim.objects.all (fun o => decide (0 < o.radius ∧ 2 * o.radius ≤ sim.boxWidth ∧
    2 * o.radius ≤ sim.boxHeight))

/-- Every pair of objects of `l` has equal kind; these are exactly the
states `RPSSimulator::isGameOver` accepts (proved in
`isGameOver_iff_sameKinds`). -/
def sameKinds (l : List GameObject) : Prop :=
  ∀ a ∈ l, ∀ b ∈ l, a.type = b.type

/-- Concrete object for the wall-reflection scenario of the spec: a ROCK
at `x = 96` moving right at `vx = +2` with radius 5. -/
def cA7 : GameObject :=
  { type := ObjectType.ROCK, x := 96, y := 50, vx := 2, vy := 0, radius := 5 }

/-- Concrete single-object arena (`100 x 100` box) for the wall-reflection
scenario. -/
def csim7 : RPSSimulator :=
  { objects := [cA7], boxWidth := 100, boxHeight := 100, generation := 0 }

/-- Concrete arena whose tick violates the containment claim: two
stationary overlapping objects next to the left wall of a `100 x 100`
box; the center distance is 1, a perfect square, so the embedded square
root is the exact real one here. -/
def csim1 : RPSSimulator :=
  { objects :=
      [{ type := ObjectType.ROCK, x := 5, y := 50, vx := 0, vy := 0, radius := 5 },
       { type := ObjectType.SCISSORS, x := 6, y := 50, vx := 0, vy := 0, radius := 5 }],
    boxWidth := 100, boxHeight := 100, generation := 0 }

/-- Concrete arena containing two kinds (a ROCK and a SCISSORS far
apart), so `isGameOver` is false. -/
def cmixed : RPSSimulator :=
  { objects :=
      [{ type := ObjectType.ROCK, x := 20, y := 20, vx := 1, vy := 0, radius := 5 },
       { type := ObjectType.SCISSORS, x := 70, y := 70, vx := 0, vy := 1, radius := 5 }],
    boxWidth := 100, boxHeight := 100, generation := 0 }

/-- Concrete arena containing only ROCK objects, so `isGameOver` is true
from the start. -/
def crocks : RPSSimulator :=
  { objects :=
      [{ type := ObjectType.ROCK, x := 20, y := 20, vx := 1, vy := 0, radius := 5 },
       { type := ObjectType.ROCK, x := 70, y := 70, vx := 0, vy := 1, radius := 5 }],
    boxWidth := 100, boxHeight := 100, generation := 0 }

/-- Concrete position-draw stream (what the constructor seed determines). -/
def cpos : ℕ → ℚ × ℚ := fun _ => (50, 50)

/-- One possible velocity-draw stream of the seed-independent `static`
generator. -/
def cvel1 : ℕ → ℚ × ℚ := fun _ => (1, 0)

/-- Another possible velocity-draw stream of the seed-independent
`static` generator. -/
def cvel2 : ℕ → ℚ × ℚ := fun _ => (0, 1)

lemma determineWinner_self (a : ObjectType) : GameRules.determineWinner a a = a := by
  cases a <;> rfl

lemma sqrt_cast_lt_iff (s r : ℚ) :
    Real.sqrt (s : ℝ) < (r : ℝ) ↔ 0 < r ∧ s < r * r := by
  constructor
  · intro h
    have hr : (0 : ℝ) < (r : ℝ) := lt_of_le_of_lt (Real.sqrt_nonneg _) h
    have hrq : 0 < r := by exact_mod_cast hr
    refine ⟨hrq, ?_⟩
    have h2 : (s : ℝ) < (r : ℝ) ^ 2 := (Real.sqrt_lt' hr).mp h
    rw [pow_two] at h2
    exact_mod_cast h2
  · rintro ⟨hr, hd⟩
    have hr' : (0 : ℝ) < (r : ℝ) := by exact_mod_cast hr
    rw [Real.sqrt_lt' hr', pow_two]
    exact_mod_cast hd

/-- C6: `collidesWith` returns true exactly when the Euclidean distance
between centers is strictly less than the sum of the radii; and at the
tie case (centers at 45 and 55 with radius 5 each, distance 10 equal to
the radius sum) the objects do not overlap. -/
theorem collidesWith_iff_dist_lt :
    (∀ o other : GameObject,
      o.collidesWith other = true ↔
        Real.sqrt (((o.x : ℝ) - (other.x : ℝ)) ^ 2 + ((o.y : ℝ) - (other.y : ℝ)) ^ 2) <
          (o.radius : ℝ) + (other.radius : ℝ)) ∧
    GameObject.collidesWith
        { type := ObjectType.ROCK, x := 45, y := 50, vx := 1, vy := 0, radius := 5 }
        { type := ObjectType.SCISSORS, x := 55, y := 50, vx := -1, vy := 0, radius := 5 }
      = false := by
  constructor
  · intro o other
    unfold GameObject.collidesWith
    simp only [decide_eq_true_eq]
    have harg : (((o.x - other.x) * (o.x - other.x) + (o.y - other.y) * (o.y - other.y) : ℚ) : ℝ)
        = ((o.x : ℝ) - (other.x : ℝ)) ^ 2 + ((o.y : ℝ) - (other.y : ℝ)) ^ 2 := by
      push_cast
      ring
    have hrsum : (((o.radius + other.radius : ℚ)) : ℝ) = (o.radius : ℝ) + (other.radius : ℝ) := by
      push_cast
      ring
    rw [← harg, ← hrsum]
    exact (sqrt_cast_lt_iff _ _).symm
  · with_unfolding_all decide

/-- C4: the dominance function satisfies the classic table — Rock beats
Scissors, Scissors beat Paper, Paper beats Rock — and every kind ties
with itself. -/
theorem determineWinner_table :
    GameRules.determineWinner ObjectType.ROCK ObjectType.SCISSORS = ObjectType.ROCK ∧
    GameRules.determineWinner ObjectType.SCISSORS ObjectType.PAPER = ObjectType.SCISSORS ∧
    GameRules.determineWinner ObjectType.PAPER ObjectType.ROCK = ObjectType.PAPER ∧
    ∀ a : ObjectType, GameRules.determineWinner a a = a :=
  ⟨rfl, rfl, rfl, determineWinner_self⟩

/-- C5: the dominance function is symmetric in its two arguments. -/
theorem determineWinner_symm (a b : ObjectType) :
    GameRules.determineWinner a b = GameRules.determineWinner b a := by
  cases a <;> cases b <;> rfl

/-- C10: `resolveCollision` preserves the midpoint of the pair — the
coordinate sums `x1 + x2` and `y1 + y2` are unchanged, both when the
separation nudge fires (positive distance: the two offsets are equal and
opposite) and when it is skipped (zero distance). -/
theorem resolveCollision_preserves_midpoint (obj1 obj2 : GameObject) :
    (GameRules.resolveCollision obj1 obj2).1.x + (GameRules.resolveCollision obj1 obj2).2.x
        = obj1.x + obj2.x ∧
    (GameRules.resolveCollision obj1 obj2).1.y + (GameRules.resolveCollision obj1 obj2).2.y
        = obj1.y + obj2.y := by
  simp only [GameRules.resolveCollision]
  split <;> refine ⟨?_, ?_⟩ <;> first
    | (simp only [Prod.fst, Prod.snd]; ring)
    | simp

lemma handleBoundaries_x_eq (o : GameObject) (width height : ℚ) :
    (o.handleBoundaries width height).x =
      if o.x - o.radius ≤ 0 ∨ width ≤ o.x + o.radius then
        max o.radius (min (width - o.radius) o.x)
      else o.x := by
  simp only [GameObject.handleBoundaries]
  split_ifs <;> rfl

lemma handleBoundaries_vx_eq (o : GameObject) (width height : ℚ) :
    (o.handleBoundaries width height).vx =
      if o.x - o.radius ≤ 0 ∨ width ≤ o.x + o.radius then -o.vx else o.vx := by
  simp only [GameObject.handleBoundaries]
  split_ifs <;> rfl

lemma handleBoundaries_y_eq (o : GameObject) (width height : ℚ) :
    (o.handleBoundaries width height).y =
      if o.y - o.radius ≤ 0 ∨ height ≤ o.y + o.radius then
        max o.radius (min (height - o.radius) o.y)
      else o.y := by
  simp only [GameObject.handleBoundaries]
  split_ifs <;> rfl

lemma handleBoundaries_vy_eq (o : GameObject) (width height : ℚ) :
    (o.handleBoundaries width height).vy =
      if o.y - o.radius ≤ 0 ∨ height ≤ o.y + o.radius then -o.vy else o.vy := by
  simp only [GameObject.handleBoundaries]
  split_ifs <;> rfl

lemma handleBoundaries_radius (o : GameObject) (width height : ℚ) :
    (o.handleBoundaries width height).radius = o.radius := by
  simp only [GameObject.handleBoundaries]
  split_ifs <;> rfl

lemma handleBoundaries_type (o : GameObject) (width height : ℚ) :
    (o.handleBoundaries width height).type = o.type := by
  simp only [GameObject.handleBoundaries]
  split_ifs <;> rfl

lemma bounce_coord_bounds (r w x : ℚ) (hr : 2 * r ≤ w) :
    r ≤ (if x - r ≤ 0 ∨ w ≤ x + r then max r (min (w - r) x) else x) ∧
    (if x - r ≤ 0 ∨ w ≤ x + r then max r (min (w - r) x) else x) ≤ w - r := by
  split_ifs with h
  · exact ⟨le_max_left _ _, max_le (by linarith) (min_le_left _ _)⟩
  · push_neg at h
    exact ⟨by linarith [h.1], by linarith [h.2]⟩

/-- C7: whenever after integration `x - radius ≤ 0` or
`x + radius ≥ width`, boundary handling negates `vx` and clamps `x` by
`max(radius, min(width - radius, x))`, and symmetrically in `y`; in the
concrete scenario, the agent at `x = 96` with `vx = +2` and radius 5 in
the 100-wide arena ends the tick at `x = 95` with `vx = -2`, and sits at
`x = 93` after the next tick. -/
theorem handleBoundaries_reflects :
    (∀ (o : GameObject) (width height : ℚ),
        o.x - o.radius ≤ 0 ∨ width ≤ o.x + o.radius →
        (o.handleBoundaries width height).vx = -o.vx ∧
        (o.handleBoundaries width height).x = max o.radius (min (width - o.radius) o.x)) ∧
    (∀ (o : GameObject) (width height : ℚ),
        o.y - o.radius ≤ 0 ∨ height ≤ o.y + o.radius →
        (o.handleBoundaries width height).vy = -o.vy ∧
        (o.handleBoundaries width height).y = max o.radius (min (height - o.radius) o.y)) ∧
    (csim7.update).objects =
      [{ type := ObjectType.ROCK, x := 95, y := 50, vx := -2, vy := 0, radius := 5 }] ∧
    (csim7.update.update).objects =
      [{ type := ObjectType.ROCK, x := 93, y := 50, vx := -2, vy := 0, radius := 5 }] := by
  refine ⟨?_, ?_, ?_, ?_⟩
  · intro o width height h
    rw [handleBoundaries_vx_eq, handleBoundaries_x_eq, if_pos h, if_pos h]
    exact ⟨rfl, rfl⟩
  · intro o width height h
    rw [handleBoundaries_vy_eq, handleBoundaries_y_eq, if_pos h, if_pos h]
    exact ⟨rfl, rfl⟩
  · with_unfolding_all decide
  · with_unfolding_all decide

/-- Witness for `handleBoundaries_reflects`: the scenario object after
integration (`x = 98`) satisfies the x-wall condition, and the theorem
instantiates there. -/
theorem handleBoundaries_reflects_witness :
    (cA7.update.handleBoundaries 100 100).vx = -cA7.update.vx ∧
    (cA7.update.handleBoundaries 100 100).x =
      max cA7.update.radius (min (100 - cA7.update.radius) cA7.update.x) :=
  handleBoundaries_reflects.1 cA7.update 100 100 (by with_unfolding_all decide)

lemma handleBoundaries_in_box (o : GameObject) (width height : ℚ)
    (hw : 2 * o.radius ≤ width) (hh : 2 * o.radius ≤ height) :
    o.radius ≤ (o.handleBoundaries width height).x ∧
    (o.handleBoundaries width height).x ≤ width - o.radius ∧
    o.radius ≤ (o.handleBoundaries width height).y ∧
    (o.handleBoundaries width height).y ≤ height - o.radius := by
  rw [handleBoundaries_x_eq, handleBoundaries_y_eq]
  exact ⟨(bounce_coord_bounds o.radius width o.x hw).1,
    (bounce_coord_bounds o.radius width o.x hw).2,
    (bounce_coord_bounds o.radius height o.y hh).1,
    (bounce_coord_bounds o.radius height o.y hh).2⟩

/-- C1 (amended): on a well-formed arena, every agent is fully inside the
box after the motion phase (integration plus wall handling) of a tick;
the subsequent collision phase's separation nudge can push an agent back
out, which `tick_bounds_counterexample` exhibits. -/
theorem motionPhase_in_bounds (sim : RPSSimulator)
    (h : wellFormedArena sim = true) :
    boundsOK sim.boxWidth sim.boxHeight sim.motionPhase = true := by
  unfold wellFormedArena at h
  simp only [Bool.and_eq_true, List.all_eq_true, decide_eq_true_eq] at h
  obtain ⟨-, hobj⟩ := h
  unfold boundsOK RPSSimulator.motionPhase
  simp only [List.all_eq_true, List.mem_map, decide_eq_true_eq]
  rintro o' ⟨o, ho, rfl⟩
  obtain ⟨-, hw, hh⟩ := hobj o ho
  have hrad : (GameObject.update o).radius = o.radius := rfl
  have := handleBoundaries_in_box (GameObject.update o) sim.boxWidth sim.boxHeight
    (by rw [hrad]; exact hw) (by rw [hrad]; exact hh)
  rw [handleBoundaries_radius, hrad]
  exact this

/-- Witness for `motionPhase_in_bounds`: the concrete scenario arena is
well formed and its motion phase keeps its one agent inside the box. -/
theorem motionPhase_in_bounds_witness :
    boundsOK csim7.boxWidth csim7.boxHeight csim7.motionPhase = true :=
  motionPhase_in_bounds csim7 (by with_unfolding_all decide)

/-- C1 counterexample: `csim1` is well formed, its agents start inside
the box, yet after one completed tick (motion phase then collision phase)
the containment bound fails: the separation nudge moves the first agent
to `x = 3 < radius = 5`. -/
theorem tick_bounds_counterexample :
    wellFormedArena csim1 = true ∧
    boundsOK csim1.boxWidth csim1.boxHeight csim1.objects = true ∧
    boundsOK csim1.boxWidth csim1.boxHeight (csim1.update).objects = false := by
  with_unfolding_all decide

lemma foldl_countStep (l : List GameObject) :
    ∀ acc : ℕ × ℕ × ℕ,
      l.foldl countStep acc =
        (acc.1 + l.countP (fun o => decide (o.type = ObjectType.ROCK)),
         acc.2.1 + l.countP (fun o => decide (o.type = ObjectType.PAPER)),
         acc.2.2 + l.countP (fun o => decide (o.type = ObjectType.SCISSORS))) := by
  induction l with
  | nil => intro acc; simp
  | cons o l ih =>
    intro acc
    rw [List.foldl_cons, ih]
    cases h : o.type <;> simp [countStep, h, List.countP_cons] <;> omega

lemma getTypeCounts_eq (sim : RPSSimulator) :
    sim.getTypeCounts =
      (countOf sim ObjectType.ROCK, countOf sim ObjectType.PAPER,
       countOf sim ObjectType.SCISSORS) := by
  unfold RPSSimulator.getTypeCounts countOf
  rw [foldl_countStep]
  simp

lemma countP_kinds_sum (l : List GameObject) :
    l.countP (fun o => decide (o.type = ObjectType.ROCK)) +
    l.countP (fun o => decide (o.type = ObjectType.PAPER)) +
    l.countP (fun o => decide (o.type = ObjectType.SCISSORS)) = l.length := by
  induction l with
  | nil => rfl
  | cons o l ih =>
    cases h : o.type <;> simp [List.countP_cons, h] <;> omega

/-- C3 counterexample: on the concrete arena `cmixed`, `isGameOver` is
false and yet `getWinner` returns the ordinary kind ROCK; the code has no
assertion, exception or any other failure path — `getWinner` is a total
function with a defensive default. -/
theorem getWinner_no_failure_counterexample :
    cmixed.isGameOver = false ∧ cmixed.getWinner = ObjectType.ROCK := by
  with_unfolding_all decide

/-- C3 (amended): calling `getWinner` on an arena in which `isGameOver`
is false does not fail: it is total and returns an ordinary kind, the
first kind with a positive count in the order ROCK, PAPER, SCISSORS — in
particular a kind actually present in the arena. -/
theorem getWinner_present_when_not_over (sim : RPSSimulator)
    (h : sim.isGameOver = false) : 0 < countOf sim sim.getWinner := by
  have hc := getTypeCounts_eq sim
  simp only [RPSSimulator.isGameOver, hc, decide_eq_false_iff_not, not_le] at h
  simp only [RPSSimulator.getWinner, hc]
  split_ifs with h1 h2 h3
  · exact h1
  · exact h2
  · exact h3
  · simp [h1, h2, h3] at h

/-- Witness for `getWinner_present_when_not_over` at the concrete mixed
arena. -/
theorem getWinner_present_when_not_over_witness :
    0 < countOf cmixed cmixed.getWinner :=
  getWinner_present_when_not_over cmixed (by with_unfolding_all decide)

lemma resolvePair_length (l : List GameObject) (i j : ℕ) :
    (resolvePair l i j).length = l.length := by
  unfold resolvePair
  split <;> (try split) <;> simp [List.length_set]

lemma foldl_resolvePair_length (ps : List (ℕ × ℕ)) :
    ∀ l : List GameObject,
      (ps.foldl (fun acc p => resolvePair acc p.1 p.2) l).length = l.length := by
  induction ps with
  | nil => intro l; rfl
  | cons p ps ih =>
    intro l
    rw [List.foldl_cons, ih, resolvePair_length]

lemma collisionPhase_length (l : List GameObject) :
    (collisionPhase l).length = l.length :=
  foldl_resolvePair_length _ l

lemma update_objects_length (sim : RPSSimulator) :
    (sim.update).objects.length = sim.objects.length := by
  show (collisionPhase sim.motionPhase).length = _
  rw [collisionPhase_length]
  unfold RPSSimulator.motionPhase
  simp

lemma runTicks_objects_length (sim : RPSSimulator) (n : ℕ) :
    (sim.runTicks n).objects.length = sim.objects.length := by
  induction n with
  | zero => rfl
  | succ n ih => rw [RPSSimulator.runTicks, update_objects_length, ih]

lemma initObjects_length (pos vel : ℕ → ℚ × ℚ) :
    (initObjects pos vel).length = 15 := rfl

lemma counts_sum_eq_length (sim : RPSSimulator) :
    sim.getTypeCounts.1 + sim.getTypeCounts.2.1 + sim.getTypeCounts.2.2 =
      sim.objects.length := by
  rw [getTypeCounts_eq]
  exact countP_kinds_sum sim.objects

/-- C8: from the standard initialization (any box, any seed-derived
position draws, any velocity draws), the number of agents is 15 after
every number of ticks, and the three per-kind counts of `getTypeCounts`
sum to the number of agents. -/
theorem agent_count_conserved (width height : ℚ) (pos vel : ℕ → ℚ × ℚ) (n : ℕ) :
    ((mkSimulator width height pos vel).runTicks n).objects.length = 15 ∧
    ((mkSimulator width height pos vel).runTicks n).getTypeCounts.1 +
      ((mkSimulator width height pos vel).runTicks n).getTypeCounts.2.1 +
      ((mkSimulator width height pos vel).runTicks n).getTypeCounts.2.2 =
      ((mkSimulator width height pos vel).runTicks n).objects.length := by
  refine ⟨?_, counts_sum_eq_length _⟩
  rw [runTicks_objects_length]
  exact initObjects_length pos vel

lemma sameKinds_of_types_from (l l' : List GameObject) (h : sameKinds l)
    (hsub : ∀ a ∈ l', ∃ a0 ∈ l, a.type = a0.type) : sameKinds l' := by
  intro a ha b hb
  obtain ⟨a0, ha0, hta⟩ := hsub a ha
  obtain ⟨b0, hb0, htb⟩ := hsub b hb
  rw [hta, htb]
  exact h a0 ha0 b0 hb0

lemma resolveCollision_types (o1 o2 : GameObject) :
    (GameRules.resolveCollision o1 o2).1.type = GameRules.determineWinner o1.type o2.type ∧
    (GameRules.resolveCollision o1 o2).2.type = GameRules.determineWinner o1.type o2.type := by
  simp only [GameRules.resolveCollision]
  split <;> exact ⟨rfl, rfl⟩

lemma mem_resolvePair (l : List GameObject) (i j : ℕ) (a : GameObject)
    (ha : a ∈ resolvePair l i j) :
    a ∈ l ∨ ∃ oi ∈ l, ∃ oj ∈ l,
      a.type = GameRules.determineWinner oi.type oj.type := by
  simp only [resolvePair] at ha
  split at ha
  next oi oj hi hj =>
    split at ha
    · rcases List.mem_or_eq_of_mem_set ha with ha1 | rfl
      · rcases List.mem_or_eq_of_mem_set ha1 with ha2 | rfl
        · exact Or.inl ha2
        · exact Or.inr ⟨oi, List.getElem?_mem hi, oj, List.getElem?_mem hj,
            (resolveCollision_types oi oj).1⟩
      · exact Or.inr ⟨oi, List.getElem?_mem hi, oj, List.getElem?_mem hj,
          (resolveCollision_types oi oj).2⟩
    · exact Or.inl ha
  next => exact Or.inl ha

lemma resolvePair_sameKinds (l : List GameObject) (i j : ℕ) (h : sameKinds l) :
    sameKinds (resolvePair l i j) := by
  refine sameKinds_of_types_from l _ h ?_
  intro a ha
  rcases mem_resolvePair l i j a ha with ha' | ⟨oi, hoi, oj, hoj, ht⟩
  · exact ⟨a, ha', rfl⟩
  · refine ⟨oi, hoi, ?_⟩
    rw [ht, h oi hoi oj hoj]
    exact determineWinner_self _

lemma foldl_resolvePair_sameKinds (ps : List (ℕ × ℕ)) :
    ∀ l : List GameObject, sameKinds l →
      sameKinds (ps.foldl (fun acc p => resolvePair acc p.1 p.2) l) := by
  induction ps with
  | nil => exact fun l h => h
  | cons p ps ih =>
    intro l h
    rw [List.foldl_cons]
    exact ih _ (resolvePair_sameKinds _ _ _ h)

lemma collisionPhase_sameKinds (l : List GameObject) (h : sameKinds l) :
    sameKinds (collisionPhase l) :=
  foldl_resolvePair_sameKinds _ l h

lemma motionPhase_sameKinds (sim : RPSSimulator) (h : sameKinds sim.objects) :
    sameKinds sim.motionPhase := by
  refine sameKinds_of_types_from sim.objects _ h ?_
  intro a ha
  unfold RPSSimulator.motionPhase at ha
  rcases List.mem_map.mp ha with ⟨o, ho, rfl⟩
  exact ⟨o, ho, by rw [handleBoundaries_type]; rfl⟩

lemma countOf_pos_iff (sim : RPSSimulator) (k : ObjectType) :
    0 < countOf sim k ↔ ∃ a ∈ sim.objects, a.type = k := by
  unfold countOf
  rw [List.countP_pos_iff]
  simp

lemma isGameOver_iff_sameKinds (sim : RPSSimulator) :
    sim.isGameOver = true ↔ sameKinds sim.objects := by
  simp only [RPSSimulator.isGameOver, getTypeCounts_eq, decide_eq_true_eq]
  constructor
  · intro hle a ha b hb
    by_contra hne
    have hpa : 0 < countOf sim a.type := (countOf_pos_iff sim a.type).mpr ⟨a, ha, rfl⟩
    have hpb : 0 < countOf sim b.type := (countOf_pos_iff sim b.type).mpr ⟨b, hb, rfl⟩
    cases hta : a.type <;> cases htb : b.type <;>
        rw [hta] at hpa hne <;> rw [htb] at hpb hne <;>
      first
        | exact hne rfl
        | (simp only [if_pos hpa, if_pos hpb] at hle; split_ifs at hle <;> omega)
  · intro hsame
    rcases hl : sim.objects with - | ⟨o0, rest⟩
    · have hz : ∀ k, countOf sim k = 0 := by
        intro k
        unfold countOf
        rw [hl]
        rfl
      simp [hz]
    · have ho0 : o0 ∈ sim.objects := by
        rw [hl]
        exact List.mem_cons_self _ _
      have hz : ∀ k, k ≠ o0.type → countOf sim k = 0 := by
        intro k hk
        unfold countOf
        rw [List.countP_eq_zero]
        intro a ha
        simp only [decide_eq_true_eq]
        intro hak
        exact hk (hak ▸ hsame a ha o0 ho0)
      cases ho : o0.type
      case ROCK =>
        have h1 : countOf sim ObjectType.PAPER = 0 := hz _ (by rw [ho]; simp)
        have h2 : countOf sim ObjectType.SCISSORS = 0 := hz _ (by rw [ho]; simp)
        simp [h1, h2]
        split_ifs <;> omega
      case PAPER =>
        have h1 : countOf sim ObjectType.ROCK = 0 := hz _ (by rw [ho]; simp)
        have h2 : countOf sim ObjectType.SCISSORS = 0 := hz _ (by rw [ho]; simp)
        simp [h1, h2]
        split_ifs <;> omega
      case SCISSORS =>
        have h1 : countOf sim ObjectType.ROCK = 0 := hz _ (by rw [ho]; simp)
        have h2 : countOf sim ObjectType.PAPER = 0 := hz _ (by rw [ho]; simp)
        simp [h1, h2]
        split_ifs <;> omega

lemma update_sameKinds (sim : RPSSimulator) (h : sameKinds sim.objects) :
    sameKinds (sim.update).objects := by
  show sameKinds (collisionPhase sim.motionPhase)
  exact collisionPhase_sameKinds _ (motionPhase_sameKinds sim h)

/-- C9: `isGameOver` is absorbing — once true it stays true under any
further number of ticks: motion never changes kinds, and every collision
in a single-kind arena resolves two equal kinds to that same kind. -/
theorem isGameOver_absorbing (sim : RPSSimulator) (n : ℕ)
    (h : sim.isGameOver = true) : (sim.runTicks n).isGameOver = true := by
  induction n with
  | zero => exact h
  | succ n ih =>
    rw [RPSSimulator.runTicks]
    rw [isGameOver_iff_sameKinds] at ih ⊢
    exact update_sameKinds _ ih

/-- Witness for `isGameOver_absorbing`: the all-ROCK arena is over at
tick 0 and still over after two ticks. -/
theorem isGameOver_absorbing_witness :
    (crocks.runTicks 2).isGameOver = true :=
  isGameOver_absorbing crocks 2 (by with_unfolding_all decide)

/-- C2: evaluation at the failing input — two constructions with the same
box and the same seed-derived position draws, but different draws from
the seed-independent `static` velocity generator, already differ at
generation 0, so repeated ticks cannot produce identical state
sequences.  (In the code the constructor takes no seed parameter at all:
the member rng is seeded from `steady_clock::now`, and the velocities
come from a `static` generator seeded by `std::random_device`.) -/
theorem same_seed_not_deterministic :
    mkSimulator 100 100 cpos cvel1 ≠ mkSimulator 100 100 cpos cvel2 := by
  with_unfolding_all decide
